import Mathlib

/-!
Verification of the benchmark-history data artifact
`src/dev/latency_bench/data.js` of the mountpoint-s3 repository.

The source file is a single static JavaScript assignment
`window.BENCHMARK_DATA = { ... }` whose right-hand side is a JSON value:
a time series of latency benchmark runs, each annotated with commit
metadata.  We embed the JSON value shallowly as a `Json` abstract syntax
tree (numbers become exact rationals, preserving the decimal literals of
the source), and settle each structural property of the specification by
evaluating a decidable checker on the embedded value.
-/

namespace LatencyBench

/-- A JSON value.  Numbers are represented as exact rationals: every JSON
number literal in the source is a finite decimal, which converts exactly. -/
inductive Json where
  | null : Json
  | bool : Bool → Json
  | num : ℚ → Json
  | str : String → Json
  | arr : List Json → Json
  | obj : List (String × Json) → Json

/-- Look up the field `k` of a JSON object; `none` on non-objects. -/
def Json.getField : Json → String → Option Json
  | .obj fs, k => fs.lookup k
  | _, _ => none

/-- The field names of a JSON object, in source order. -/
def Json.keys : Json → List String
  | .obj fs => fs.map Prod.fst
  | _ => []

/-- Is this JSON value a string? -/
def Json.isStr : Json → Bool
  | .str _ => true
  | _ => false

/-- Is this JSON value an object? -/
def Json.isObj : Json → Bool
  | .obj _ => true
  | _ => false

/-- Is this JSON value a boolean? -/
def Json.isBool : Json → Bool
  | .bool _ => true
  | _ => false

/-- Is this JSON value a number? -/
def Json.isNum : Json → Bool
  | .num _ => true
  | _ => false

/-- Is this JSON value an integer number (denominator 1)? -/
def Json.isIntNum : Json → Bool
  | .num q => q.den == 1
  | _ => false

/-- The string content of field `k`, when present and a string. -/
def Json.strField (j : Json) (k : String) : Option String :=
  match j.getField k with
  | some (.str s) => some s
  | _ => none

/-- The numeric content of field `k`, when present and a number. -/
def Json.numField (j : Json) (k : String) : Option ℚ :=
  match j.getField k with
  | some (.num q) => some q
  | _ => none

/-- The element list of field `k`, when present and an array. -/
def Json.arrField (j : Json) (k : String) : Option (List Json) :=
  match j.getField k with
  | some (.arr xs) => some xs
  | _ => none

/-- The exact rational value of a decimal source literal: mantissa `m` with
`e` digits after the decimal point, so `decimal 72 3` is the literal 0.072. -/
def decimal (m e : Nat) : ℚ :=
  mkRat m (10 ^ e)

/-- Run record 0 of entries.Benchmark in src/dev/latency_bench/data.js. -/
def run00 : Json :=
  Json.obj [
    ("commit", Json.obj [
      ("author", Json.obj [
        ("email", Json.str "bornholt@amazon.com"),
        ("name", Json.str "James Bornholt"),
        ("username", Json.str "jamesbornholt")]),
      ("committer", Json.obj [
        ("email", Json.str "noreply@github.com"),
        ("name", Json.str "GitHub"),
        ("username", Json.str "web-flow")]),
      ("distinct", Json.bool true),
      ("id", Json.str "c7464d043a0792a164aa6ecbb189974b2e2dfeeb"),
      ("message", Json.str "Fixes for Rust 1.72 (#479)\n\n* Fixes for Rust 1.72\n\nSigned-off-by: James Bornholt <bornholt@amazon.com>\n\n* Fix tracing\n\nSigned-off-by: James Bornholt <bornholt@amazon.com>\n\n---------\n\nSigned-off-by: James Bornholt <bornholt@amazon.com>"),
      ("timestamp", Json.str "2023-08-25T15:38:27Z"),
      ("tree_id", Json.str "0ff6bd84f859a7b1fff3f2e95a32a004d6b80a45"),
      ("url", Json.str "https://github.com/awslabs/mountpoint-s3/commit/c7464d043a0792a164aa6ecbb189974b2e2dfeeb")]),
    ("date", Json.num (decimal 1692980275812 0)),
    ("tool", Json.str "customSmallerIsBetter"),
    ("benches", Json.arr [
      Json.obj [
        ("name", Json.str "readdir_100"),
        ("value", Json.num (decimal 72 3)),
        ("unit", Json.str "seconds")],
      Json.obj [
        ("name", Json.str "readdir_1000"),
        ("value", Json.num (decimal 175 3)),
        ("unit", Json.str "seconds")],
      Json.obj [
        ("name", Json.str "readdir_10000"),
        ("value", Json.num (decimal 1149 3)),
        ("unit", Json.str "seconds")],
      Json.obj [
        ("name", Json.str "readdir_100000"),
        ("value", Json.num (decimal 10888 3)),
        ("unit", Json.str "seconds")],
      Json.obj [
        ("name", Json.str "time_to_first_byte_read"),
        ("value", Json.num (decimal 1038612371 7)),
        ("unit", Json.str "milliseconds")],
      Json.obj [
        ("name", Json.str "time_to_first_byte_read_small_file"),
        ("value", Json.num (decimal 760403998 7)),
        ("unit", Json.str "milliseconds")]])]

/-- Run record 1 of entries.Benchmark in src/dev/latency_bench/data.js. -/
def run01 : Json :=
  Json.obj [
    ("commit", Json.obj [
      ("author", Json.obj [
        ("email", Json.str "ahmar.suhail@gmail.com"),
        ("name", Json.str "ahmarsuhail"),
        ("username", Json.str "ahmarsuhail")]),
      ("committer", Json.obj [
        ("email", Json.str "noreply@github.com"),
        ("name", Json.str "GitHub"),
        ("username", Json.str "web-flow")]),
      ("distinct", Json.bool true),
      ("id", Json.str "a7e12ec872d2b51f77f7fc2b9b11b4cba0305f56"),
      ("message", Json.str "Updates encryption documentation for SSE-KMS, DSSE-KMS (#480)\n\n* improves encryption documentation\r\n\r\nSigned-off-by: Ahmar Suhail <ahmarsu@amazon.co.uk>\r\n\r\n* Update doc/CONFIGURATION.md\r\n\r\nCo-authored-by: James Bornholt <jamesbornholt@gmail.com>\r\nSigned-off-by: ahmarsuhail <ahmar.suhail@gmail.com>\r\n\r\n---------\r\n\r\nSigned-off-by: Ahmar Suhail <ahmarsu@amazon.co.uk>\r\nSigned-off-by: ahmarsuhail <ahmar.suhail@gmail.com>\r\nCo-authored-by: Ahmar Suhail <ahmarsu@amazon.co.uk>\r\nCo-authored-by: James Bornholt <jamesbornholt@gmail.com>"),
      ("timestamp", Json.str "2023-08-25T13:05:48-05:00"),
      ("tree_id", Json.str "8bdb885b6bf0211e6c94ce228ab1b96881a632b1"),
      ("url", Json.str "https://github.com/awslabs/mountpoint-s3/commit/a7e12ec872d2b51f77f7fc2b9b11b4cba0305f56")]),
    ("date", Json.num (decimal 1692987391644 0)),
    ("tool", Json.str "customSmallerIsBetter"),
    ("benches", Json.arr [
      Json.obj [
        ("name", Json.str "readdir_100"),
        ("value", Json.num (decimal 74 3)),
        ("unit", Json.str "seconds")],
      Json.obj [
        ("name", Json.str "readdir_1000"),
        ("value", Json.num (decimal 185 3)),
        ("unit", Json.str "seconds")],
      Json.obj [
        ("name", Json.str "readdir_10000"),
        ("value", Json.num (decimal 1138 3)),
        ("unit", Json.str "seconds")],
      Json.obj [
        ("name", Json.str "readdir_100000"),
        ("value", Json.num (decimal 1054 2)),
        ("unit", Json.str "seconds")],
      Json.obj [
        ("name", Json.str "time_to_first_byte_read"),
        ("value", Json.num (decimal 975525328 7)),
        ("unit", Json.str "milliseconds")],
      Json.obj [
        ("name", Json.str "time_to_first_byte_read_small_file"),
        ("value", Json.num (decimal 66968853 6)),
        ("unit", Json.str "milliseconds")]])]

/-- Run record 2 of entries.Benchmark in src/dev/latency_bench/data.js. -/
def run02 : Json :=
  Json.obj [
    ("commit", Json.obj [
      ("author", Json.obj [
        ("email", Json.str "49699333+dependabot[bot]@users.noreply.github.com"),
        ("name", Json.str "dependabot[bot]"),
        ("username", Json.str "dependabot[bot]")]),
      ("committer", Json.obj [
        ("email", Json.str "noreply@github.com"),
        ("name", Json.str "GitHub"),
        ("username", Json.str "web-flow")]),
      ("distinct", Json.bool true),
      ("id", Json.str "f10dc5b34edeed6d9640911054bef1366751f11e"),
      ("message", Json.str "Bump aws-actions/configure-aws-credentials from 2 to 3 (#484)\n\nBumps [aws-actions/configure-aws-credentials](https://github.com/aws-actions/configure-aws-credentials) from 2 to 3.\n- [Release notes](https://github.com/aws-actions/configure-aws-credentials/releases)\n- [Changelog](https://github.com/aws-actions/configure-aws-credentials/blob/main/CHANGELOG.md)\n- [Commits](https://github.com/aws-actions/configure-aws-credentials/compare/v2...v3)\n\n---\nupdated-dependencies:\n- dependency-name: aws-actions/configure-aws-credentials\n  dependency-type: direct:production\n  update-type: version-update:semver-major\n...\n\nSigned-off-by: dependabot[bot] <support@github.com>\nCo-authored-by: dependabot[bot] <49699333+dependabot[bot]@users.noreply.github.com>"),
      ("timestamp", Json.str "2023-08-28T17:31:03Z"),
      ("tree_id", Json.str "e4ee11c1b6513cb4048abdcf47c05c785f3af657"),
      ("url", Json.str "https://github.com/awslabs/mountpoint-s3/commit/f10dc5b34edeed6d9640911054bef1366751f11e")]),
    ("date", Json.num (decimal 1693246290233 0)),
    ("tool", Json.str "customSmallerIsBetter"),
    ("benches", Json.arr [
      Json.obj [
        ("name", Json.str "readdir_100"),
        ("value", Json.num (decimal 82 3)),
        ("unit", Json.str "seconds")],
      Json.obj [
        ("name", Json.str "readdir_1000"),
        ("value", Json.num (decimal 18 2)),
        ("unit", Json.str "seconds")],
      Json.obj [
        ("name", Json.str "readdir_10000"),
        ("value", Json.num (decimal 1154 3)),
        ("unit", Json.str "seconds")],
      Json.obj [
        ("name", Json.str "readdir_100000"),
        ("value", Json.num (decimal 10809 3)),
        ("unit", Json.str "seconds")],
      Json.obj [
        ("name", Json.str "time_to_first_byte_read"),
        ("value", Json.num (decimal 838370987 7)),
        ("unit", Json.str "milliseconds")],
      Json.obj [
        ("name", Json.str "time_to_first_byte_read_small_file"),
        ("value", Json.num (decimal 721544018 7)),
        ("unit", Json.str "milliseconds")]])]

/-- Run record 3 of entries.Benchmark in src/dev/latency_bench/data.js. -/
def run03 : Json :=
  Json.obj [
    ("commit", Json.obj [
      ("author", Json.obj [
        ("email", Json.str "67096+lesserwhirls@users.noreply.github.com"),
        ("name", Json.str "Sean Arms"),
        ("username", Json.str "lesserwhirls")]),
      ("committer", Json.obj [
        ("email", Json.str "noreply@github.com"),
        ("name", Json.str "GitHub"),
        ("username", Json.str "web-flow")]),
      ("distinct", Json.bool true),
      ("id", Json.str "09f556edf6ed4233ff6c419dbf9331ac082c11d5"),
      ("message", Json.str "Support building with Clang 16 (#486)\n\nIn order to build with Clang 16, the bindgen dependency needs to be\nupgraded to at least version 0.62.0 (this change bumps to the latest,\nwhich is 0.66.1). See awslabs/mountpoint-s3#485\n\nSigned-off-by: Sean Arms <67096+lesserwhirls@users.noreply.github.com>"),
      ("timestamp", Json.str "2023-08-28T18:06:18Z"),
      ("tree_id", Json.str "6bcf53c04dad3ed4eb2a512919978aee74deda1e"),
      ("url", Json.str "https://github.com/awslabs/mountpoint-s3/commit/09f556edf6ed4233ff6c419dbf9331ac082c11d5")]),
    ("date", Json.num (decimal 1693248083489 0)),
    ("tool", Json.str "customSmallerIsBetter"),
    ("benches", Json.arr [
      Json.obj [
        ("name", Json.str "readdir_100"),
        ("value", Json.num (decimal 86 3)),
        ("unit", Json.str "seconds")],
      Json.obj [
        ("name", Json.str "readdir_1000"),
        ("value", Json.num (decimal 191 3)),
        ("unit", Json.str "seconds")],
      Json.obj [
        ("name", Json.str "readdir_10000"),
        ("value", Json.num (decimal 1193 3)),
        ("unit", Json.str "seconds")],
      Json.obj [
        ("name", Json.str "readdir_100000"),
        ("value", Json.num (decimal 11185 3)),
        ("unit", Json.str "seconds")],
      Json.obj [
        ("name", Json.str "time_to_first_byte_read"),
        ("value", Json.num (decimal 913870611 7)),
        ("unit", Json.str "milliseconds")],
      Json.obj [
        ("name", Json.str "time_to_first_byte_read_small_file"),
        ("value", Json.num (decimal 54508068200000004 15)),
        ("unit", Json.str "milliseconds")]])]

/-- Run record 4 of entries.Benchmark in src/dev/latency_bench/data.js. -/
def run04 : Json :=
  Json.obj [
    ("commit", Json.obj [
      ("author", Json.obj [
        ("email", Json.str "bornholt@amazon.com"),
        ("name", Json.str "James Bornholt"),
        ("username", Json.str "jamesbornholt")]),
      ("committer", Json.obj [
        ("email", Json.str "noreply@github.com"),
        ("name", Json.str "GitHub"),
        ("username", Json.str "web-flow")]),
      ("distinct", Json.bool true),
      ("id", Json.str "73a27c1d494e07354cab0d4b06a3a4499f6d466d"),
      ("message", Json.str "Small fixes for S3 on Outposts (#470)\n\nThis fixes two issues that were preventing Mountpoint from working\nagainst Outposts buckets:\n1. Outposts doesn\x27t include the bucket name in ListObjectsV2 responses.\n   We weren\x27t actually using that output anyway, so I just removed it.\n2. For GetObject requests, we were sending a HTTP header like\n   \x60Accept: application/xml,*/*\x60. While technically valid HTTP, it\x27s\n   weird to accept */* as well as something else, and it was confusing\n   Outposts\x27 request signing. So I switched to overwriting the existing\n   header, which is what the comment suggested the code was intended to\n   do anyway.\n\nI also took this chance to make a little cleanup to parsing\nListObjectsV2 responses: the \x60parse\x60 functions shouldn\x27t be defined on\nthe generic \x60ListObjectsResult\x60 structs, which are shared by all\nclients.\n\nSigned-off-by: James Bornholt <bornholt@amazon.com>"),
      ("timestamp", Json.str "2023-08-30T16:35:40Z"),
      ("tree_id", Json.str "444bdf0455dc0f3ab4c24c722bed5db5e1733938"),
      ("url", Json.str "https://github.com/awslabs/mountpoint-s3/commit/73a27c1d494e07354cab0d4b06a3a4499f6d466d")]),
    ("date", Json.num (decimal 1693415889919 0)),
    ("tool", Json.str "customSmallerIsBetter"),
    ("benches", Json.arr [
      Json.obj [
        ("name", Json.str "readdir_100"),
        ("value", Json.num (decimal 76 3)),
        ("unit", Json.str "seconds")],
      Json.obj [
        ("name", Json.str "readdir_1000"),
        ("value", Json.num (decimal 195 3)),
        ("unit", Json.str "seconds")],
      Json.obj [
        ("name", Json.str "readdir_10000"),
        ("value", Json.num (decimal 1153 3)),
        ("unit", Json.str "seconds")],
      Json.obj [
        ("name", Json.str "readdir_100000"),
        ("value", Json.num (decimal 10843 3)),
        ("unit", Json.str "seconds")],
      Json.obj [
        ("name", Json.str "time_to_first_byte_read"),
        ("value", Json.num (decimal 982288027 7)),
        ("unit", Json.str "milliseconds")],
      Json.obj [
        ("name", Json.str "time_to_first_byte_read_small_file"),
        ("value", Json.num (decimal 92819065 6)),
        ("unit", Json.str "milliseconds")]])]

/-- Run record 5 of entries.Benchmark in src/dev/latency_bench/data.js. -/
def run05 : Json :=
  Json.obj [
    ("commit", Json.obj [
      ("author", Json.obj [
        ("email", Json.str "vladvolodkin@gmail.com"),
        ("name", Json.str "Volodkin Vladislav"),
        ("username", Json.str "vladem")]),
      ("committer", Json.obj [
        ("email", Json.str "noreply@github.com"),
        ("name", Json.str "GitHub"),
        ("username", Json.str "web-flow")]),
      ("distinct", Json.bool true),
      ("id", Json.str "5626e204259e6a8141d798dbc0837ce3e3e3c3c3"),
      ("message", Json.str "Allow reading restored GFR/GDA objects (#434) (#467)\n\nSigned-off-by: Vlad Volodkin <vlaad@amazon.com>\nCo-authored-by: Vlad Volodkin <vlaad@amazon.com>"),
      ("timestamp", Json.str "2023-08-30T22:33:46Z"),
      ("tree_id", Json.str "b6e1559cd71f934917f8e13028b3f7ddb68ef46a"),
      ("url", Json.str "https://github.com/awslabs/mountpoint-s3/commit/5626e204259e6a8141d798dbc0837ce3e3e3c3c3")]),
    ("date", Json.num (decimal 1693437064719 0)),
    ("tool", Json.str "customSmallerIsBetter"),
    ("benches", Json.arr [
      Json.obj [
        ("name", Json.str "readdir_100"),
        ("value", Json.num (decimal 74 3)),
        ("unit", Json.str "seconds")],
      Json.obj [
        ("name", Json.str "readdir_1000"),
        ("value", Json.num (decimal 271 3)),
        ("unit", Json.str "seconds")],
      Json.obj [
        ("name", Json.str "readdir_10000"),
        ("value", Json.num (decimal 1112 3)),
        ("unit", Json.str "seconds")],
      Json.obj [
        ("name", Json.str "readdir_100000"),
        ("value", Json.num (decimal 10574 3)),
        ("unit", Json.str "seconds")],
      Json.obj [
        ("name", Json.str "time_to_first_byte_read"),
        ("value", Json.num (decimal 777493373 7)),
        ("unit", Json.str "milliseconds")],
      Json.obj [
        ("name", Json.str "time_to_first_byte_read_small_file"),
        ("value", Json.num (decimal 786989397 7)),
        ("unit", Json.str "milliseconds")]])]

/-- Run record 6 of entries.Benchmark in src/dev/latency_bench/data.js. -/
def run06 : Json :=
  Json.obj [
    ("commit", Json.obj [
      ("author", Json.obj [
        ("email", Json.str "bornholt@amazon.com"),
        ("name", Json.str "James Bornholt"),
        ("username", Json.str "jamesbornholt")]),
      ("committer", Json.obj [
        ("email", Json.str "noreply@github.com"),
        ("name", Json.str "GitHub"),
        ("username", Json.str "web-flow")]),
      ("distinct", Json.bool false),
      ("id", Json.str "5e8d834c2df2269d2f8670f38bc3c764d10a90f7"),
      ("message", Json.str "Close input/output handles when running in background (#489)\n\nWhen we run in background mode, the child process inherits the\nstdin/stdout/stderr of the parent. That\x27s good because we can print\nmount errors from the child and have them reach the parent. But once\nwe\x27re mounted and the parent exits, the child still holds onto those\nhandles. This is bad if those handles are pipes, which are often used\nwhen trying to launch a daemon (e.g. Python subprocess.check_output). In\nthat case, the pipes will never close and the caller will keep waiting\nfor output on them forever.\n\nWe need to close these handles once we\x27re successfully daemonized. This\nwill prevent us from seeing anything the process prints after they\x27re\nclosed, but from that point we should be logging anyway, so shouldn\x27t be\nprinting. Printing still works (doesn\x27t panic or anything), just doesn\x27t\ngo anywhere.\n\nWith this change, a Python script like\n\n    import subprocess\n    subprocess.check_output([\x27mount-s3\x27, \x27doc-example-bucket\x27, \x27/bucket\x27])\n\nworks correctly: once the mount has succeeded, it returns. Without this\nchange, this program blocks until the bucket is unmounted.\n\nSigned-off-by: James Bornholt <bornholt@amazon.com>"),
      ("timestamp", Json.str "2023-08-31T12:42:20Z"),
      ("tree_id", Json.str "4b2c3032f1df614a94637e0d1e1aa4b45ca30025"),
      ("url", Json.str "https://github.com/awslabs/mountpoint-s3/commit/5e8d834c2df2269d2f8670f38bc3c764d10a90f7")]),
    ("date", Json.num (decimal 1693487974539 0)),
    ("tool", Json.str "customSmallerIsBetter"),
    ("benches", Json.arr [
      Json.obj [
        ("name", Json.str "readdir_100"),
        ("value", Json.num (decimal 83 3)),
        ("unit", Json.str "seconds")],
      Json.obj [
        ("name", Json.str "readdir_1000"),
        ("value", Json.num (decimal 188 3)),
        ("unit", Json.str "seconds")],
      Json.obj [
        ("name", Json.str "readdir_10000"),
        ("value", Json.num (decimal 1142 3)),
        ("unit", Json.str "seconds")],
      Json.obj [
        ("name", Json.str "readdir_100000"),
        ("value", Json.num (decimal 10879 3)),
        ("unit", Json.str "seconds")],
      Json.obj [
        ("name", Json.str "time_to_first_byte_read"),
        ("value", Json.num (decimal 1012566887 7)),
        ("unit", Json.str "milliseconds")],
      Json.obj [
        ("name", Json.str "time_to_first_byte_read_small_file"),
        ("value", Json.num (decimal 652557248 7)),
        ("unit", Json.str "milliseconds")]])]

/-- Run record 7 of entries.Benchmark in src/dev/latency_bench/data.js. -/
def run07 : Json :=
  Json.obj [
    ("commit", Json.obj [
      ("author", Json.obj [
        ("email", Json.str "sauraank@amazon.co.uk"),
        ("name", Json.str "Ankit Saurabh"),
        ("username", Json.str "sauraank")]),
      ("committer", Json.obj [
        ("email", Json.str "noreply@github.com"),
        ("name", Json.str "GitHub"),
        ("username", Json.str "web-flow")]),
      ("distinct", Json.bool true),
      ("id", Json.str "7643a22ac362e6ace91b2a266f4cc91b7e6570bc"),
      ("message", Json.str "Bump version of Mountpoint to v1.0.1 (#494)\n\n* Bump version of Mountpoint to v1.0.1\n\nSigned-off-by: Ankit Saurabh <sauraank@amazon.co.uk>\n\n* Added latest PRs to CHANGELOG.md\n\nSigned-off-by: Ankit Saurabh <sauraank@amazon.co.uk>\n\n* Added latest PRs to CHANGELOG.md\n\nSigned-off-by: Ankit Saurabh <sauraank@amazon.co.uk>\n\n* Added description of changes in changelog\n\nSigned-off-by: Ankit Saurabh <sauraank@amazon.co.uk>\n\n* Added PR in the changelog\n\nSigned-off-by: Ankit Saurabh <sauraank@amazon.co.uk>\n\n* Added PR in the changelog\n\nSigned-off-by: Ankit Saurabh <sauraank@amazon.co.uk>\n\n---------\n\nSigned-off-by: Ankit Saurabh <sauraank@amazon.co.uk>"),
      ("timestamp", Json.str "2023-09-01T09:11:10Z"),
      ("tree_id", Json.str "eace6e6893afca2d09c22b628c500710f6a04933"),
      ("url", Json.str "https://github.com/awslabs/mountpoint-s3/commit/7643a22ac362e6ace91b2a266f4cc91b7e6570bc")]),
    ("date", Json.num (decimal 1693561670598 0)),
    ("tool", Json.str "customSmallerIsBetter"),
    ("benches", Json.arr [
      Json.obj [
        ("name", Json.str "readdir_100"),
        ("value", Json.num (decimal 75 3)),
        ("unit", Json.str "seconds")],
      Json.obj [
        ("name", Json.str "readdir_1000"),
        ("value", Json.num (decimal 196 3)),
        ("unit", Json.str "seconds")],
      Json.obj [
        ("name", Json.str "readdir_10000"),
        ("value", Json.num (decimal 1154 3)),
        ("unit", Json.str "seconds")],
      Json.obj [
        ("name", Json.str "readdir_100000"),
        ("value", Json.num (decimal 10667 3)),
        ("unit", Json.str "seconds")],
      Json.obj [
        ("name", Json.str "time_to_first_byte_read"),
        ("value", Json.num (decimal 799257521 7)),
        ("unit", Json.str "milliseconds")],
      Json.obj [
        ("name", Json.str "time_to_first_byte_read_small_file"),
        ("value", Json.num (decimal 750004244 7)),
        ("unit", Json.str "milliseconds")]])]

/-- Run record 8 of entries.Benchmark in src/dev/latency_bench/data.js. -/
def run08 : Json :=
  Json.obj [
    ("commit", Json.obj [
      ("author", Json.obj [
        ("email", Json.str "monthonk@amazon.com"),
        ("name", Json.str "Monthon Klongklaew"),
        ("username", Json.str "monthonk")]),
      ("committer", Json.obj [
        ("email", Json.str "noreply@github.com"),
        ("name", Json.str "GitHub"),
        ("username", Json.str "web-flow")]),
      ("distinct", Json.bool false),
      ("id", Json.str "cc7f31e0f7db834b907ad84760c945c97f675f57"),
      ("message", Json.str "Update documentation for live editing use case (#491)\n\n* Make it clear that live editing is not a good fit for mountpoint\n\nSigned-off-by: Monthon Klongklaew <monthonk@amazon.com>\n\n* Update README.md\n\nCo-authored-by: James Bornholt <jamesbornholt@gmail.com>\nSigned-off-by: Monthon Klongklaew <monthonk@amazon.com>\n\n---------\n\nSigned-off-by: Monthon Klongklaew <monthonk@amazon.com>\nCo-authored-by: James Bornholt <jamesbornholt@gmail.com>"),
      ("timestamp", Json.str "2023-09-01T14:27:57Z"),
      ("tree_id", Json.str "83b64928c20eeb775938d8a370c161616c10a3f3"),
      ("url", Json.str "https://github.com/awslabs/mountpoint-s3/commit/cc7f31e0f7db834b907ad84760c945c97f675f57")]),
    ("date", Json.num (decimal 1693580669985 0)),
    ("tool", Json.str "customSmallerIsBetter"),
    ("benches", Json.arr [
      Json.obj [
        ("name", Json.str "readdir_100"),
        ("value", Json.num (decimal 7 2)),
        ("unit", Json.str "seconds")],
      Json.obj [
        ("name", Json.str "readdir_1000"),
        ("value", Json.num (decimal 185 3)),
        ("unit", Json.str "seconds")],
      Json.obj [
        ("name", Json.str "readdir_10000"),
        ("value", Json.num (decimal 1107 3)),
        ("unit", Json.str "seconds")],
      Json.obj [
        ("name", Json.str "readdir_100000"),
        ("value", Json.num (decimal 10633 3)),
        ("unit", Json.str "seconds")],
      Json.obj [
        ("name", Json.str "time_to_first_byte_read"),
        ("value", Json.num (decimal 7244031659999999 14)),
        ("unit", Json.str "milliseconds")],
      Json.obj [
        ("name", Json.str "time_to_first_byte_read_small_file"),
        ("value", Json.num (decimal 963176158 7)),
        ("unit", Json.str "milliseconds")]])]

/-- Run record 9 of entries.Benchmark in src/dev/latency_bench/data.js. -/
def run09 : Json :=
  Json.obj [
    ("commit", Json.obj [
      ("author", Json.obj [
        ("email", Json.str "monthonk@amazon.com"),
        ("name", Json.str "Monthon Klongklaew"),
        ("username", Json.str "monthonk")]),
      ("committer", Json.obj [
        ("email", Json.str "noreply@github.com"),
        ("name", Json.str "GitHub"),
        ("username", Json.str "web-flow")]),
      ("distinct", Json.bool true),
      ("id", Json.str "efb334dc6dbb1c72f21be20d26377ccf79989166"),
      ("message", Json.str "Change release title in the workflow (#496)\n\nSigned-off-by: Monthon Klongklaew <monthonk@amazon.com>"),
      ("timestamp", Json.str "2023-09-01T14:28:08Z"),
      ("tree_id", Json.str "62869c00cee5eb34bd3ed0e8acf104e409bde630"),
      ("url", Json.str "https://github.com/awslabs/mountpoint-s3/commit/efb334dc6dbb1c72f21be20d26377ccf79989166")]),
    ("date", Json.num (decimal 1693580684165 0)),
    ("tool", Json.str "customSmallerIsBetter"),
    ("benches", Json.arr [
      Json.obj [
        ("name", Json.str "readdir_100"),
        ("value", Json.num (decimal 77 3)),
        ("unit", Json.str "seconds")],
      Json.obj [
        ("name", Json.str "readdir_1000"),
        ("value", Json.num (decimal 181 3)),
        ("unit", Json.str "seconds")],
      Json.obj [
        ("name", Json.str "readdir_10000"),
        ("value", Json.num (decimal 1123 3)),
        ("unit", Json.str "seconds")],
      Json.obj [
        ("name", Json.str "readdir_100000"),
        ("value", Json.num (decimal 10754 3)),
        ("unit", Json.str "seconds")],
      Json.obj [
        ("name", Json.str "time_to_first_byte_read"),
        ("value", Json.num (decimal 57065677 6)),
        ("unit", Json.str "milliseconds")],
      Json.obj [
        ("name", Json.str "time_to_first_byte_read_small_file"),
        ("value", Json.num (decimal 7818084990000001 14)),
        ("unit", Json.str "milliseconds")]])]

/-- Run record 10 of entries.Benchmark in src/dev/latency_bench/data.js. -/
def run10 : Json :=
  Json.obj [
    ("commit", Json.obj [
      ("author", Json.obj [
        ("email", Json.str "sauraank@amazon.co.uk"),
        ("name", Json.str "Ankit Saurabh"),
        ("username", Json.str "sauraank")]),
      ("committer", Json.obj [
        ("email", Json.str "noreply@github.com"),
        ("name", Json.str "GitHub"),
        ("username", Json.str "web-flow")]),
      ("distinct", Json.bool true),
      ("id", Json.str "534c3ed7f53289587b9aa47778a7ffa76109f81e"),
      ("message", Json.str "Added Unreleased section in changelog (#497)\n\nSigned-off-by: Ankit Saurabh <sauraank@amazon.co.uk>"),
      ("timestamp", Json.str "2023-09-01T15:57:58Z"),
      ("tree_id", Json.str "7fb39eccb7cba98135a54cd7b5f5f4eeeb3dfd9f"),
      ("url", Json.str "https://github.com/awslabs/mountpoint-s3/commit/534c3ed7f53289587b9aa47778a7ffa76109f81e")]),
    ("date", Json.num (decimal 1693585713065 0)),
    ("tool", Json.str "customSmallerIsBetter"),
    ("benches", Json.arr [
      Json.obj [
        ("name", Json.str "readdir_100"),
        ("value", Json.num (decimal 81 3)),
        ("unit", Json.str "seconds")],
      Json.obj [
        ("name", Json.str "readdir_1000"),
        ("value", Json.num (decimal 175 3)),
        ("unit", Json.str "seconds")],
      Json.obj [
        ("name", Json.str "readdir_10000"),
        ("value", Json.num (decimal 1165 3)),
        ("unit", Json.str "seconds")],
      Json.obj [
        ("name", Json.str "readdir_100000"),
        ("value", Json.num (decimal 10808 3)),
        ("unit", Json.str "seconds")],
      Json.obj [
        ("name", Json.str "time_to_first_byte_read"),
        ("value", Json.num (decimal 641876625 7)),
        ("unit", Json.str "milliseconds")],
      Json.obj [
        ("name", Json.str "time_to_first_byte_read_small_file"),
        ("value", Json.num (decimal 662393769 7)),
        ("unit", Json.str "milliseconds")]])]

/-- Run record 11 of entries.Benchmark in src/dev/latency_bench/data.js. -/
def run11 : Json :=
  Json.obj [
    ("commit", Json.obj [
      ("author", Json.obj [
        ("email", Json.str "monthonk@amazon.com"),
        ("name", Json.str "Monthon Klongklaew"),
        ("username", Json.str "monthonk")]),
      ("committer", Json.obj [
        ("email", Json.str "noreply@github.com"),
        ("name", Json.str "GitHub"),
        ("username", Json.str "web-flow")]),
      ("distinct", Json.bool true),
      ("id", Json.str "b632bbe9645f1f6af26ed839e791b8a34ab74b36"),
      ("message", Json.str "Use default thread config for benchmark (#504)\n\nSigned-off-by: Monthon Klongklaew <monthonk@amazon.com>"),
      ("timestamp", Json.str "2023-09-06T13:14:32Z"),
      ("tree_id", Json.str "9c286583dea66a5ed85a09f85bd51c4bc1938e6b"),
      ("url", Json.str "https://github.com/awslabs/mountpoint-s3/commit/b632bbe9645f1f6af26ed839e791b8a34ab74b36")]),
    ("date", Json.num (decimal 1694008263721 0)),
    ("tool", Json.str "customSmallerIsBetter"),
    ("benches", Json.arr [
      Json.obj [
        ("name", Json.str "readdir_100"),
        ("value", Json.num (decimal 71 3)),
        ("unit", Json.str "seconds")],
      Json.obj [
        ("name", Json.str "readdir_1000"),
        ("value", Json.num (decimal 169 3)),
        ("unit", Json.str "seconds")],
      Json.obj [
        ("name", Json.str "readdir_10000"),
        ("value", Json.num (decimal 1086 3)),
        ("unit", Json.str "seconds")],
      Json.obj [
        ("name", Json.str "readdir_100000"),
        ("value", Json.num (decimal 10588 3)),
        ("unit", Json.str "seconds")],
      Json.obj [
        ("name", Json.str "time_to_first_byte_read"),
        ("value", Json.num (decimal 701583657 7)),
        ("unit", Json.str "milliseconds")],
      Json.obj [
        ("name", Json.str "time_to_first_byte_read_small_file"),
        ("value", Json.num (decimal 55906332 6)),
        ("unit", Json.str "milliseconds")]])]

/-- Run record 12 of entries.Benchmark in src/dev/latency_bench/data.js. -/
def run12 : Json :=
  Json.obj [
    ("commit", Json.obj [
      ("author", Json.obj [
        ("email", Json.str "djonesoa@amazon.com"),
        ("name", Json.str "Daniel Carl Jones"),
        ("username", Json.str "dannycjones")]),
      ("committer", Json.obj [
        ("email", Json.str "noreply@github.com"),
        ("name", Json.str "GitHub"),
        ("username", Json.str "web-flow")]),
      ("distinct", Json.bool false),
      ("id", Json.str "4db11adabc77c365d052ad99b4d64fd19b7e73bb"),
      ("message", Json.str "Cancel unused in-flight prefetch tasks (#505)\n\nPreviously, mountpoint-s3 would not cancel prefetch tasks that it was going to ignore.\nInstead, they would continue to be polled by the executor despite the results never being checked.\nThis change ensures that the task handles are dropped which cancels the task/future.\n\nIn the future, we may want to retain some of these tasks where the prefetcher may still be able to make use of them.\n\nSigned-off-by: Daniel Carl Jones <djonesoa@amazon.com>"),
      ("timestamp", Json.str "2023-09-06T16:52:01Z"),
      ("tree_id", Json.str "a0e86d27049a74a659b94beb839ff541891b1e61"),
      ("url", Json.str "https://github.com/awslabs/mountpoint-s3/commit/4db11adabc77c365d052ad99b4d64fd19b7e73bb")]),
    ("date", Json.num (decimal 1694021415915 0)),
    ("tool", Json.str "customSmallerIsBetter"),
    ("benches", Json.arr [
      Json.obj [
        ("name", Json.str "readdir_100"),
        ("value", Json.num (decimal 72 3)),
        ("unit", Json.str "seconds")],
      Json.obj [
        ("name", Json.str "readdir_1000"),
        ("value", Json.num (decimal 188 3)),
        ("unit", Json.str "seconds")],
      Json.obj [
        ("name", Json.str "readdir_10000"),
        ("value", Json.num (decimal 1207 3)),
        ("unit", Json.str "seconds")],
      Json.obj [
        ("name", Json.str "readdir_100000"),
        ("value", Json.num (decimal 1124 2)),
        ("unit", Json.str "seconds")],
      Json.obj [
        ("name", Json.str "time_to_first_byte_read"),
        ("value", Json.num (decimal 844224647 7)),
        ("unit", Json.str "milliseconds")],
      Json.obj [
        ("name", Json.str "time_to_first_byte_read_small_file"),
        ("value", Json.num (decimal 835045155 7)),
        ("unit", Json.str "milliseconds")]])]

/-- Run record 13 of entries.Benchmark in src/dev/latency_bench/data.js. -/
def run13 : Json :=
  Json.obj [
    ("commit", Json.obj [
      ("author", Json.obj [
        ("email", Json.str "sauraank@amazon.co.uk"),
        ("name", Json.str "Ankit Saurabh"),
        ("username", Json.str "sauraank")]),
      ("committer", Json.obj [
        ("email", Json.str "noreply@github.com"),
        ("name", Json.str "GitHub"),
        ("username", Json.str "web-flow")]),
      ("distinct", Json.bool true),
      ("id", Json.str "57d1bd6e525131ab58cd6a449e735aa04d9a06c3"),
      ("message", Json.str "Added accesspoint variables in integration.yml (#508)\n\nSigned-off-by: Ankit Saurabh <sauraank@amazon.co.uk>"),
      ("timestamp", Json.str "2023-09-07T16:56:58Z"),
      ("tree_id", Json.str "9d5fa6f294a3f3fe2d3b77943c85db1ed244f855"),
      ("url", Json.str "https://github.com/awslabs/mountpoint-s3/commit/57d1bd6e525131ab58cd6a449e735aa04d9a06c3")]),
    ("date", Json.num (decimal 1694108055549 0)),
    ("tool", Json.str "customSmallerIsBetter"),
    ("benches", Json.arr [
      Json.obj [
        ("name", Json.str "readdir_100"),
        ("value", Json.num (decimal 74 3)),
        ("unit", Json.str "seconds")],
      Json.obj [
        ("name", Json.str "readdir_1000"),
        ("value", Json.num (decimal 194 3)),
        ("unit", Json.str "seconds")],
      Json.obj [
        ("name", Json.str "readdir_10000"),
        ("value", Json.num (decimal 1132 3)),
        ("unit", Json.str "seconds")],
      Json.obj [
        ("name", Json.str "readdir_100000"),
        ("value", Json.num (decimal 10934 3)),
        ("unit", Json.str "seconds")],
      Json.obj [
        ("name", Json.str "time_to_first_byte_read"),
        ("value", Json.num (decimal 76797243 6)),
        ("unit", Json.str "milliseconds")],
      Json.obj [
        ("name", Json.str "time_to_first_byte_read_small_file"),
        ("value", Json.num (decimal 808760978 7)),
        ("unit", Json.str "milliseconds")]])]

/-- Run record 14 of entries.Benchmark in src/dev/latency_bench/data.js. -/
def run14 : Json :=
  Json.obj [
    ("commit", Json.obj [
      ("author", Json.obj [
        ("email", Json.str "sauraank@amazon.co.uk"),
        ("name", Json.str "Ankit Saurabh"),
        ("username", Json.str "sauraank")]),
      ("committer", Json.obj [
        ("email", Json.str "noreply@github.com"),
        ("name", Json.str "GitHub"),
        ("username", Json.str "web-flow")]),
      ("distinct", Json.bool false),
      ("id", Json.str "0a8bb28009e12b99bbb0f73017ecea7a5dfed31a"),
      ("message", Json.str "Removed extra $ from environment variable for MRAP (#514)\n\nSigned-off-by: Ankit Saurabh <sauraank@amazon.co.uk>"),
      ("timestamp", Json.str "2023-09-13T16:40:54Z"),
      ("tree_id", Json.str "7c1b6b7fb7310752d7fc7d4fc4d08d6d2cd75e4d"),
      ("url", Json.str "https://github.com/awslabs/mountpoint-s3/commit/0a8bb28009e12b99bbb0f73017ecea7a5dfed31a")]),
    ("date", Json.num (decimal 1694625411879 0)),
    ("tool", Json.str "customSmallerIsBetter"),
    ("benches", Json.arr [
      Json.obj [
        ("name", Json.str "readdir_100"),
        ("value", Json.num (decimal 8 2)),
        ("unit", Json.str "seconds")],
      Json.obj [
        ("name", Json.str "readdir_1000"),
        ("value", Json.num (decimal 169 3)),
        ("unit", Json.str "seconds")],
      Json.obj [
        ("name", Json.str "readdir_10000"),
        ("value", Json.num (decimal 1153 3)),
        ("unit", Json.str "seconds")],
      Json.obj [
        ("name", Json.str "readdir_100000"),
        ("value", Json.num (decimal 10813 3)),
        ("unit", Json.str "seconds")],
      Json.obj [
        ("name", Json.str "time_to_first_byte_read"),
        ("value", Json.num (decimal 799100509 7)),
        ("unit", Json.str "milliseconds")],
      Json.obj [
        ("name", Json.str "time_to_first_byte_read_small_file"),
        ("value", Json.num (decimal 79454774 6)),
        ("unit", Json.str "milliseconds")]])]

/-- Run record 15 of entries.Benchmark in src/dev/latency_bench/data.js. -/
def run15 : Json :=
  Json.obj [
    ("commit", Json.obj [
      ("author", Json.obj [
        ("email", Json.str "sauraank@amazon.co.uk"),
        ("name", Json.str "Ankit Saurabh"),
        ("username", Json.str "sauraank")]),
      ("committer", Json.obj [
        ("email", Json.str "noreply@github.com"),
        ("name", Json.str "GitHub"),
        ("username", Json.str "web-flow")]),
      ("distinct", Json.bool true),
      ("id", Json.str "8086f0e26044217b16caa21a929f6b3ed8e839b8"),
      ("message", Json.str "Added accesspoint and transfer acceleration tests (#417)\n\nSigned-off-by: Ankit Saurabh <sauraank@amazon.co.uk>"),
      ("timestamp", Json.str "2023-09-14T16:23:48Z"),
      ("tree_id", Json.str "c760de3ebbc76103bf93522b9a1e4d376c38e62b"),
      ("url", Json.str "https://github.com/awslabs/mountpoint-s3/commit/8086f0e26044217b16caa21a929f6b3ed8e839b8")]),
    ("date", Json.num (decimal 1694711122616 0)),
    ("tool", Json.str "customSmallerIsBetter"),
    ("benches", Json.arr [
      Json.obj [
        ("name", Json.str "readdir_100"),
        ("value", Json.num (decimal 88 3)),
        ("unit", Json.str "seconds")],
      Json.obj [
        ("name", Json.str "readdir_1000"),
        ("value", Json.num (decimal 18 2)),
        ("unit", Json.str "seconds")],
      Json.obj [
        ("name", Json.str "readdir_10000"),
        ("value", Json.num (decimal 1151 3)),
        ("unit", Json.str "seconds")],
      Json.obj [
        ("name", Json.str "readdir_100000"),
        ("value", Json.num (decimal 10576 3)),
        ("unit", Json.str "seconds")],
      Json.obj [
        ("name", Json.str "time_to_first_byte_read"),
        ("value", Json.num (decimal 105402678 6)),
        ("unit", Json.str "milliseconds")],
      Json.obj [
        ("name", Json.str "time_to_first_byte_read_small_file"),
        ("value", Json.num (decimal 9094622240000001 14)),
        ("unit", Json.str "milliseconds")]])]

/-- Run record 16 of entries.Benchmark in src/dev/latency_bench/data.js. -/
def run16 : Json :=
  Json.obj [
    ("commit", Json.obj [
      ("author", Json.obj [
        ("email", Json.str "bornholt@amazon.com"),
        ("name", Json.str "James Bornholt"),
        ("username", Json.str "jamesbornholt")]),
      ("committer", Json.obj [
        ("email", Json.str "noreply@github.com"),
        ("name", Json.str "GitHub"),
        ("username", Json.str "web-flow")]),
      ("distinct", Json.bool false),
      ("id", Json.str "7bb17a04869ff7b4d6ae16148b3fab9d0e3bdc0a"),
      ("message", Json.str "Rearrange client crate and improve its docs (#511)\n\n* Rearrange client crate and improve its docs\n\nThe current docs page for the client crate is pretty indecipherable.\nWhile we\x27re not currently suggesting customers use it directly, we know\na few already are, and we\x27d like the docs to be legible. So this commit\nmoves around a bunch of the public structure of the client crate to be\nconsistent and intentional.\n\nThere\x27s no semantics changes here, this is all just rearranging and\ncommenting stuff that wasn\x27t commented before.\n\nSigned-off-by: James Bornholt <bornholt@amazon.com>\n\n* Fix typo\n\nSigned-off-by: James Bornholt <bornholt@amazon.com>\n\n---------\n\nSigned-off-by: James Bornholt <bornholt@amazon.com>"),
      ("timestamp", Json.str "2023-09-15T14:38:12Z"),
      ("tree_id", Json.str "907857ff1594a237336e10962550779309db6d91"),
      ("url", Json.str "https://github.com/awslabs/mountpoint-s3/commit/7bb17a04869ff7b4d6ae16148b3fab9d0e3bdc0a")]),
    ("date", Json.num (decimal 1694790930839 0)),
    ("tool", Json.str "customSmallerIsBetter"),
    ("benches", Json.arr [
      Json.obj [
        ("name", Json.str "readdir_100"),
        ("value", Json.num (decimal 79 3)),
        ("unit", Json.str "seconds")],
      Json.obj [
        ("name", Json.str "readdir_1000"),
        ("value", Json.num (decimal 166 3)),
        ("unit", Json.str "seconds")],
      Json.obj [
        ("name", Json.str "readdir_10000"),
        ("value", Json.num (decimal 1149 3)),
        ("unit", Json.str "seconds")],
      Json.obj [
        ("name", Json.str "readdir_100000"),
        ("value", Json.num (decimal 106 1)),
        ("unit", Json.str "seconds")],
      Json.obj [
        ("name", Json.str "time_to_first_byte_read"),
        ("value", Json.num (decimal 860456029 7)),
        ("unit", Json.str "milliseconds")],
      Json.obj [
        ("name", Json.str "time_to_first_byte_read_small_file"),
        ("value", Json.num (decimal 8002400279999999 14)),
        ("unit", Json.str "milliseconds")]])]

/-- Run record 17 of entries.Benchmark in src/dev/latency_bench/data.js. -/
def run17 : Json :=
  Json.obj [
    ("commit", Json.obj [
      ("author", Json.obj [
        ("email", Json.str "djonesoa@amazon.com"),
        ("name", Json.str "Daniel Carl Jones"),
        ("username", Json.str "dannycjones")]),
      ("committer", Json.obj [
        ("email", Json.str "noreply@github.com"),
        ("name", Json.str "GitHub"),
        ("username", Json.str "web-flow")]),
      ("distinct", Json.bool false),
      ("id", Json.str "b89117ad1384490a3c226e9f7cd90ec1b6d19124"),
      ("message", Json.str "Update HistogramFn impl to log failure to record rather than panic (#513)\n\n* Update HistogramFn impl to log failure to record rather than panic\n\nWhen writing 50GiB of data to a file, mountpoint-s3 panicked due to an unexpected \"ValueOutOfRangeResizeDisabled\" error.\nWhen creating the Histogram, we limit it with an upper bound of 300000000. For time durations in microsecond precision, that\x27s 300 seconds.\n\nThis change allows the histogram to fail only with a log message for values in excess of 300 seconds.\n\nSigned-off-by: Daniel Carl Jones <djonesoa@amazon.com>\n\n* Update Histogram to auto-resize\n\nPreviously, the histogram would be capped at a maximum value of 300,000,000. Now, the histogram will automatically resize.\nThis does come with the implication that more memory may be allocated if values of larger than 300,000,000 are recorded.\n\nSigned-off-by: Daniel Carl Jones <djonesoa@amazon.com>\n\n---------\n\nSigned-off-by: Daniel Carl Jones <djonesoa@amazon.com>"),
      ("timestamp", Json.str "2023-09-15T14:39:02Z"),
      ("tree_id", Json.str "b6691d6b356ac67b2510cad257c728d0ac670e6a"),
      ("url", Json.str "https://github.com/awslabs/mountpoint-s3/commit/b89117ad1384490a3c226e9f7cd90ec1b6d19124")]),
    ("date", Json.num (decimal 1694791039908 0)),
    ("tool", Json.str "customSmallerIsBetter"),
    ("benches", Json.arr [
      Json.obj [
        ("name", Json.str "readdir_100"),
        ("value", Json.num (decimal 81 3)),
        ("unit", Json.str "seconds")],
      Json.obj [
        ("name", Json.str "readdir_1000"),
        ("value", Json.num (decimal 174 3)),
        ("unit", Json.str "seconds")],
      Json.obj [
        ("name", Json.str "readdir_10000"),
        ("value", Json.num (decimal 1172 3)),
        ("unit", Json.str "seconds")],
      Json.obj [
        ("name", Json.str "readdir_100000"),
        ("value", Json.num (decimal 10873 3)),
        ("unit", Json.str "seconds")],
      Json.obj [
        ("name", Json.str "time_to_first_byte_read"),
        ("value", Json.num (decimal 675820458 7)),
        ("unit", Json.str "milliseconds")],
      Json.obj [
        ("name", Json.str "time_to_first_byte_read_small_file"),
        ("value", Json.num (decimal 7134666390000001 14)),
        ("unit", Json.str "milliseconds")]])]

/-- Run record 18 of entries.Benchmark in src/dev/latency_bench/data.js. -/
def run18 : Json :=
  Json.obj [
    ("commit", Json.obj [
      ("author", Json.obj [
        ("email", Json.str "djonesoa@amazon.com"),
        ("name", Json.str "Daniel Carl Jones"),
        ("username", Json.str "dannycjones")]),
      ("committer", Json.obj [
        ("email", Json.str "noreply@github.com"),
        ("name", Json.str "GitHub"),
        ("username", Json.str "web-flow")]),
      ("distinct", Json.bool true),
      ("id", Json.str "171c4200df20223e831dcc856103d52bc4029e15"),
      ("message", Json.str "Improve logging and error handling in benchmark script (#507)\n\nSigned-off-by: Daniel Carl Jones <djonesoa@amazon.com>"),
      ("timestamp", Json.str "2023-09-15T14:40:01Z"),
      ("tree_id", Json.str "5ceef93a7ccacff27d8a3786e112104808a86f98"),
      ("url", Json.str "https://github.com/awslabs/mountpoint-s3/commit/171c4200df20223e831dcc856103d52bc4029e15")]),
    ("date", Json.num (decimal 1694791121977 0)),
    ("tool", Json.str "customSmallerIsBetter"),
    ("benches", Json.arr [
      Json.obj [
        ("name", Json.str "readdir_100"),
        ("value", Json.num (decimal 76 3)),
        ("unit", Json.str "seconds")],
      Json.obj [
        ("name", Json.str "readdir_1000"),
        ("value", Json.num (decimal 178 3)),
        ("unit", Json.str "seconds")],
      Json.obj [
        ("name", Json.str "readdir_10000"),
        ("value", Json.num (decimal 1184 3)),
        ("unit", Json.str "seconds")],
      Json.obj [
        ("name", Json.str "readdir_100000"),
        ("value", Json.num (decimal 10662 3)),
        ("unit", Json.str "seconds")],
      Json.obj [
        ("name", Json.str "time_to_first_byte_read"),
        ("value", Json.num (decimal 58519034 6)),
        ("unit", Json.str "milliseconds")],
      Json.obj [
        ("name", Json.str "time_to_first_byte_read_small_file"),
        ("value", Json.num (decimal 7518925309999999 14)),
        ("unit", Json.str "milliseconds")]])]

/-- Run record 19 of entries.Benchmark in src/dev/latency_bench/data.js. -/
def run19 : Json :=
  Json.obj [
    ("commit", Json.obj [
      ("author", Json.obj [
        ("email", Json.str "bornholt@amazon.com"),
        ("name", Json.str "James Bornholt"),
        ("username", Json.str "jamesbornholt")]),
      ("committer", Json.obj [
        ("email", Json.str "noreply@github.com"),
        ("name", Json.str "GitHub"),
        ("username", Json.str "web-flow")]),
      ("distinct", Json.bool true),
      ("id", Json.str "11def4796d9479f8462fc78c7195dd5296c8b08f"),
      ("message", Json.str "Build releases on CentOS 7 (#517)\n\nThis gets us compatibility back to glibc 2.17. The tricky part is that\r\nCentOS 7 by default packages a GCC that\x27s too old to build the CRT and a\r\nClang that\x27s too old to run bindgen. But they also distribute optional\r\npackages (devtoolsets) that update these toolchains and stick them in a\r\nseparate directory. So this change adopts those, and tweaks the\r\nenvironment variables on the builder to point at the newer tools.\r\n\r\nSigned-off-by: James Bornholt <bornholt@amazon.com>"),
      ("timestamp", Json.str "2023-09-19T10:15:06+01:00"),
      ("tree_id", Json.str "e142d4d3790b37b2345d8eccbb771534675adc83"),
      ("url", Json.str "https://github.com/awslabs/mountpoint-s3/commit/11def4796d9479f8462fc78c7195dd5296c8b08f")]),
    ("date", Json.num (decimal 1695115549054 0)),
    ("tool", Json.str "customSmallerIsBetter"),
    ("benches", Json.arr [
      Json.obj [
        ("name", Json.str "readdir_100"),
        ("value", Json.num (decimal 77 3)),
        ("unit", Json.str "seconds")],
      Json.obj [
        ("name", Json.str "readdir_1000"),
        ("value", Json.num (decimal 173 3)),
        ("unit", Json.str "seconds")],
      Json.obj [
        ("name", Json.str "readdir_10000"),
        ("value", Json.num (decimal 1114 3)),
        ("unit", Json.str "seconds")],
      Json.obj [
        ("name", Json.str "readdir_100000"),
        ("value", Json.num (decimal 10653 3)),
        ("unit", Json.str "seconds")],
      Json.obj [
        ("name", Json.str "time_to_first_byte_read"),
        ("value", Json.num (decimal 9737342170000001 14)),
        ("unit", Json.str "milliseconds")],
      Json.obj [
        ("name", Json.str "time_to_first_byte_read_small_file"),
        ("value", Json.num (decimal 785651175 7)),
        ("unit", Json.str "milliseconds")]])]

/-- The full value bound to window.BENCHMARK_DATA in src/dev/latency_bench/data.js. -/
def BENCHMARK_DATA : Json :=
  Json.obj [
    ("lastUpdate", Json.num (decimal 1695115549634 0)),
    ("repoUrl", Json.str "https://github.com/awslabs/mountpoint-s3"),
    ("entries", Json.obj [("Benchmark", Json.arr [run00, run01, run02, run03, run04, run05, run06, run07, run08, run09, run10, run11, run12, run13, run14, run15, run16, run17, run18, run19])])]
/-- The suites of the entries object: each suite name paired with its list of
run records, in source order. -/
def suitesOf (d : Json) : List (String × List Json) :=
  match d.getField "entries" with
  | some (.obj fs) =>
    fs.map (fun p => (p.1, match p.2 with | .arr xs => xs | _ => []))
  | _ => []

/-- All run records across all suites, in file order. -/
def allRuns (d : Json) : List Json :=
  ((suitesOf d).map Prod.snd).flatten

/-- Each consecutive pair of the list is non-decreasing. -/
def nonDecreasing : List ℚ → Bool
  | a :: b :: t => decide (a ≤ b) && nonDecreasing (b :: t)
  | _ => true

/-- The run records of a named suite. -/
def suiteRuns (d : Json) (suite : String) : List Json :=
  match (suitesOf d).lookup suite with
  | some xs => xs
  | none => []

/-- The measurement records of a run record. -/
def benchesOf (run : Json) : List Json :=
  match run.arrField "benches" with
  | some xs => xs
  | none => []

/-- The measurement names of a run record, in order. -/
def benchNames (run : Json) : List String :=
  (benchesOf run).filterMap (fun b => b.strField "name")

/-- The (name, unit) pairs of the measurements of a run record, in order. -/
def benchNameUnits (run : Json) : List (String × String) :=
  (benchesOf run).filterMap (fun b =>
    match b.strField "name", b.strField "unit" with
    | some n, some u => some (n, u)
    | _, _ => none)

/-- The capture date of a run record. -/
def dateOf (run : Json) : Option ℚ :=
  run.numField "date"

/-- The capture dates of the runs of a named suite, in file order. -/
def datesOf (d : Json) (suite : String) : List ℚ :=
  (suiteRuns d suite).filterMap dateOf

/-- A string field of the commit object of a run record. -/
def commitStr (run : Json) (k : String) : Option String :=
  match run.getField "commit" with
  | some c => c.strField k
  | none => none

/-- Follows the spec wording (section 6 interface shape): a measurement is an
object with exactly the fields name (string), value (number), unit (string). -/
def specBenchShape (b : Json) : Bool :=
  b.keys == ["name", "value", "unit"] &&
  (b.strField "name").isSome &&
  (b.numField "value").isSome &&
  (b.strField "unit").isSome

/-- Follows the spec wording (section 6 interface shape): a commit object has
exactly the fields author and committer (objects), distinct (boolean), and
id, message, timestamp, tree_id, url (strings). -/
def specCommitShape (c : Json) : Bool :=
  c.keys == ["author", "committer", "distinct", "id", "message", "timestamp",
    "tree_id", "url"] &&
  (match c.getField "author" with | some a => a.isObj | none => false) &&
  (match c.getField "committer" with | some a => a.isObj | none => false) &&
  (match c.getField "distinct" with | some a => a.isBool | none => false) &&
  (c.strField "id").isSome &&
  (c.strField "message").isSome &&
  (c.strField "timestamp").isSome &&
  (c.strField "tree_id").isSome &&
  (c.strField "url").isSome

/-- Follows the spec wording (section 6 interface shape): a run record has
exactly the fields commit (a commit object), date (an integer epoch-ms
number), tool (a string), and benches (an array of measurement records). -/
def specRunShape (r : Json) : Bool :=
  r.keys == ["commit", "date", "tool", "benches"] &&
  (match r.getField "commit" with | some c => specCommitShape c | none => false) &&
  (match r.getField "date" with | some v => v.isIntNum | none => false) &&
  (r.strField "tool").isSome &&
  (match r.arrField "benches" with | some xs => xs.all specBenchShape | none => false)

/-- Follows the spec wording (section 6 interface shape): the top-level value
has exactly the fields lastUpdate (an integer epoch-ms number), repoUrl (a
string), and entries (an object mapping each suite name to an array of run
records of the shape above). -/
def specTopShape (d : Json) : Bool :=
  d.keys == ["lastUpdate", "repoUrl", "entries"] &&
  (match d.getField "lastUpdate" with | some v => v.isIntNum | none => false) &&
  (d.strField "repoUrl").isSome &&
  (match d.getField "entries" with
   | some (.obj fs) =>
     fs.all (fun p => match p.2 with | .arr xs => xs.all specRunShape | _ => false)
   | _ => false)

/-- The known set of unit strings named by the spec. -/
def knownUnits : List String :=
  ["seconds", "milliseconds"]

/-- A measurement record has a (necessarily finite, being rational)
non-negative numeric value and a unit drawn from the known unit set. -/
def measurementOk (b : Json) : Bool :=
  (match b.numField "value" with | some q => decide (0 ≤ q) | none => false) &&
  (match b.strField "unit" with | some u => knownUnits.contains u | none => false)

/-- Two run records carry the same set of measurement names. -/
def sameNameSet (r s : Json) : Bool :=
  (benchNames r).all (fun n => (benchNames s).contains n) &&
  (benchNames s).all (fun n => (benchNames r).contains n)

/-- Digit value of an ASCII decimal digit character. -/
def digitVal (c : Char) : Nat :=
  c.toNat - 48

/-- The number read from two decimal digit characters. -/
def twoDigit (a b : Char) : Nat :=
  10 * digitVal a + digitVal b

/-- Days in a month of the proleptic Gregorian calendar. -/
def daysInMonth (year month : Nat) : Nat :=
  if month == 2 then
    if year % 4 == 0 && (year % 100 != 0 || year % 400 == 0) then 29 else 28
  else if month == 4 || month == 6 || month == 9 || month == 11 then 30
  else 31

/-- Validity of an ISO 8601 timezone designator: the letter Z, or a numeric
UTC offset of the form sign HH:MM with the hour below 24 and minute below 60. -/
def tzOk : List Char → Bool
  | ['Z'] => true
  | [sg, o1, o2, ':', o3, o4] =>
    (sg == '+' || sg == '-') && [o1, o2, o3, o4].all Char.isDigit &&
    decide (twoDigit o1 o2 < 24 ∧ twoDigit o3 o4 < 60)
  | _ => false

/-- Extended-format ISO 8601 date-time validity: YYYY-MM-DDTHH:MM:SS followed
by Z or a numeric UTC offset, with the calendar and clock fields in range. -/
def isISO8601 (s : String) : Bool :=
  match s.toList with
  | y1 :: y2 :: y3 :: y4 :: '-' :: m1 :: m2 :: '-' :: d1 :: d2 :: 'T' ::
      h1 :: h2 :: ':' :: n1 :: n2 :: ':' :: x1 :: x2 :: tz =>
    [y1, y2, y3, y4, m1, m2, d1, d2, h1, h2, n1, n2, x1, x2].all Char.isDigit &&
    (let year := 1000 * digitVal y1 + 100 * digitVal y2 + twoDigit y3 y4
     let month := twoDigit m1 m2
     let day := twoDigit d1 d2
     decide (1 ≤ month ∧ month ≤ 12 ∧ 1 ≤ day ∧ day ≤ daysInMonth year month ∧
       twoDigit h1 h2 < 24 ∧ twoDigit n1 n2 < 60 ∧ twoDigit x1 x2 < 60)) &&
    tzOk tz
  | _ => false

/-- Lowercase hexadecimal digit character. -/
def isLowerHexDigit (c : Char) : Bool :=
  c.isDigit || (decide ('a' ≤ c) && decide (c ≤ 'f'))

/-- A 40-character lowercase hexadecimal string (a full git object id). -/
def isHex40 (s : String) : Bool :=
  s.length == 40 && s.toList.all isLowerHexDigit

/-- Every run record carries tool customSmallerIsBetter and exactly the six
expected (name, unit) measurement pairs in the fixed order. -/
def expectedBenches : List (String × String) :=
  [("readdir_100", "seconds"), ("readdir_1000", "seconds"),
   ("readdir_10000", "seconds"), ("readdir_100000", "seconds"),
   ("time_to_first_byte_read", "milliseconds"),
   ("time_to_first_byte_read_small_file", "milliseconds")]

/-- Combined fixed-schema check used by the suite/tool/benches invariant:
exactly one suite named Benchmark, and in every run record the tool string,
the number of measurements and the (name, unit) sequence are fixed. -/
def fixedSchemaCheck (d : Json) : Bool :=
  ((suitesOf d).map Prod.fst == ["Benchmark"]) &&
  (allRuns d).all (fun r =>
    (r.strField "tool" == some "customSmallerIsBetter") &&
    ((benchesOf r).length == 6) &&
    (benchNameUnits r == expectedBenches))

/-- C1: the value bound to window.BENCHMARK_DATA conforms to the interface
shape of spec section 6: a record with an integer epoch-ms lastUpdate, a
string repoUrl, and entries mapping each suite name to an array of run
records, each with a commit object (author, committer, boolean distinct,
string id, message, timestamp, tree_id, url), an integer epoch-ms date, a
string tool, and an array benches of records with string name, numeric
value and string unit. -/
theorem benchmark_data_conforms_to_spec_shape :
    specTopShape BENCHMARK_DATA = true := by decide

/-- C2: in every benches array of every run record, the value field is a
finite (rational) non-negative number and the unit field belongs to the
known unit set containing seconds and milliseconds. -/
theorem benchmark_values_nonneg_units_known :
    ((allRuns BENCHMARK_DATA).all (fun r => (benchesOf r).all measurementOk)) = true := by
  decide

/-- C3: across consecutive run records of entries.Benchmark, the date fields
are non-decreasing in array order. -/
theorem benchmark_dates_nondecreasing :
    nonDecreasing (datesOf BENCHMARK_DATA "Benchmark") = true := by
  decide

/-- C4: every pair of run records in entries.Benchmark yields the same set of
measurement names in its benches array. -/
theorem benchmark_name_sets_stable :
    (suiteRuns BENCHMARK_DATA "Benchmark").Pairwise
      (fun r s => sameNameSet r s = true) := by
  decide

/-- C5: in every run record of every suite under entries, the benches field
is a non-empty sequence of measurement records. -/
theorem benchmark_benches_nonempty :
    ((allRuns BENCHMARK_DATA).all (fun r => !(benchesOf r).isEmpty)) = true := by
  decide

/-- C6: in every run record, commit.timestamp is a string in valid extended
ISO 8601 date-time format, with either the Z suffix or an explicit numeric
UTC offset. -/
theorem benchmark_timestamps_iso8601 :
    ((allRuns BENCHMARK_DATA).all (fun r =>
      match commitStr r "timestamp" with
      | some t => isISO8601 t
      | none => false)) = true := by
  decide

/-- C8: the top-level lastUpdate value is greater than or equal to the date
value of every run record in every suite under entries. -/
theorem benchmark_lastUpdate_ge_all_dates :
    ((allRuns BENCHMARK_DATA).all (fun r =>
      match dateOf r, Json.numField BENCHMARK_DATA "lastUpdate" with
      | some dq, some lu => decide (dq ≤ lu)
      | _, _ => false)) = true := by
  decide

/-- C9: in every run record, commit.id is a 40-character lowercase
hexadecimal string and commit.url is the concatenation of the top-level
repoUrl, the string /commit/, and commit.id. -/
theorem benchmark_commit_id_and_url :
    ((allRuns BENCHMARK_DATA).all (fun r =>
      match commitStr r "id", commitStr r "url",
          Json.strField BENCHMARK_DATA "repoUrl" with
      | some i, some u, some repo =>
        isHex40 i && (u == repo ++ "/commit/" ++ i)
      | _, _, _ => false)) = true := by
  decide

/-- C10: entries has exactly one suite named Benchmark, every run record has
tool customSmallerIsBetter, and its benches array lists exactly the six
measurements readdir_100, readdir_1000, readdir_10000, readdir_100000,
time_to_first_byte_read, time_to_first_byte_read_small_file in that order,
with unit seconds for the readdir measurements and milliseconds for the
time-to-first-byte measurements. -/
theorem benchmark_fixed_suite_tool_benches :
    fixedSchemaCheck BENCHMARK_DATA = true := by decide

end LatencyBench
